import Mathlib

/-!
Verification development for the proxycraft HTTP reverse proxy.

The definitions below are a shallow embedding of the Python source:
pure fragments of `proxycraft/networking/routing/routing_selector.py`,
`proxycraft/config/loader.py`, `proxycraft/proxycraft.py`,
`proxycraft/upstreams/backends/http/https.py` and
`pyprox/middlewares/performance/caching/in_file.py`.
Python `str` is `String`, Python `bytes` is `List Nat` (each element < 256),
`None` is `Option.none`, raised exceptions are `Except` errors, and the
potentially non-terminating in-process re-entry of the proxy is fuel-indexed
(`none` = the computation did not finish within the given fuel).
-/

namespace ProxyCraft

/-! ### Python string primitives -/

/-- Python `s.startswith(p)`, computed on the character lists. -/
def strStartsWith (s p : String) : Bool :=
  List.isPrefixOf p.data s.data

/-- Python `s.endswith(p)`, computed on the character lists. -/
def strEndsWith (s p : String) : Bool :=
  List.isPrefixOf p.data.reverse s.data.reverse

/-- Python `str.removeprefix(p)`: drop `p` when it is a prefix, else unchanged. -/
def pyDropPfx (s p : String) : String :=
  if strStartsWith s p then ⟨s.data.drop p.data.length⟩ else s

/-- Drop all trailing occurrences of `c` from a character list. -/
def dropTrailing (l : List Char) (c : Char) : List Char :=
  (l.reverse.dropWhile (· == c)).reverse

/-- Python `str.strip(c)`: drop all leading and trailing occurrences of `c`. -/
def pyStripChar (s : String) (c : Char) : String :=
  ⟨dropTrailing (s.data.dropWhile (· == c)) c⟩

/-- Python `str.rstrip(c)`: drop all trailing occurrences of `c`. -/
def pyRStripChar (s : String) (c : Char) : String :=
  ⟨dropTrailing s.data c⟩

/-- Split a character list at the first `?`. -/
def qmSplit : List Char → List Char × List Char
  | [] => ([], [])
  | c :: cs => if c = '?' then ([], cs) else
      let r := qmSplit cs
      (c :: r.1, r.2)

/-- Split a URL into path and query at the first `?`
(the semantics httpx applies to the URL string the virtual backend passes). -/
def splitQuery (u : String) : String × String :=
  let r := qmSplit u.data
  (⟨r.1⟩, ⟨r.2⟩)

/-- Python `dict(pairs)` built from a sequence that may repeat keys, where
lookup returns the first raw value (Starlette `Headers.__getitem__`):
unique keys in first-occurrence order, first value wins. -/
def dedupFirst : List (String × String) → List (String × String)
  | [] => []
  | (k, v) :: rest => (k, v) :: (dedupFirst rest).filter (fun p => p.1 ≠ k)

/-! ### UTF-8 encoding (Python `str.encode()`) -/

/-- UTF-8 bytes of one code point. -/
def utf8Char (c : Char) : List Nat :=
  let n := c.toNat
  if n < 128 then [n]
  else if n < 2048 then [192 + n / 64, 128 + n % 64]
  else if n < 65536 then [224 + n / 4096, 128 + n / 64 % 64, 128 + n % 64]
  else [240 + n / 262144, 128 + n / 4096 % 64, 128 + n / 64 % 64, 128 + n % 64]

/-- UTF-8 bytes of a string, Python `s.encode()`. -/
def utf8Bytes (s : String) : List Nat := (s.data.map utf8Char).flatten

/-! ### MD5 (RFC 1321), used by `hashlib.md5(...).hexdigest()` -/

/-- The 64 MD5 sine-derived constants `K`. -/
def md5K : List Nat :=
  [3614090360, 3905402710, 606105819, 3250441966, 4118548399, 1200080426,
   2821735955, 4249261313, 1770035416, 2336552879, 4294925233, 2304563134,
   1804603682, 4254626195, 2792965006, 1236535329, 4129170786, 3225465664,
   643717713, 3921069994, 3593408605, 38016083, 3634488961, 3889429448,
   568446438, 3275163606, 4107603335, 1163531501, 2850285829, 4243563512,
   1735328473, 2368359562, 4294588738, 2272392833, 1839030562, 4259657740,
   2763975236, 1272893353, 4139469664, 3200236656, 681279174, 3936430074,
   3572445317, 76029189, 3654602809, 3873151461, 530742520, 3299628645,
   4096336452, 1126891415, 2878612391, 4237533241, 1700485571, 2399980690,
   4293915773, 2240044497, 1873313359, 4264355552, 2734768916, 1309151649,
   4149444226, 3174756917, 718787259, 3951481745]

/-- The 64 MD5 per-round left-rotation amounts `s`. -/
def md5S : List Nat :=
  [7, 12, 17, 22, 7, 12, 17, 22, 7, 12, 17, 22, 7, 12, 17, 22,
   5, 9, 14, 20, 5, 9, 14, 20, 5, 9, 14, 20, 5, 9, 14, 20,
   4, 11, 16, 23, 4, 11, 16, 23, 4, 11, 16, 23, 4, 11, 16, 23,
   6, 10, 15, 21, 6, 10, 15, 21, 6, 10, 15, 21, 6, 10, 15, 21]

/-- 32-bit left rotation on a value below 2^32. -/
def rotl32 (x c : Nat) : Nat :=
  ((x <<< c) % 4294967296) ||| (x >>> (32 - c))

/-- Little-endian 8-byte encoding of a natural number (the MD5 length field). -/
def leBytes8 (n : Nat) : List Nat :=
  [n % 256, n / 256 % 256, n / 65536 % 256, n / 16777216 % 256,
   n / 4294967296 % 256, n / 1099511627776 % 256,
   n / 281474976710656 % 256, n / 72057594037927936 % 256]

/-- MD5 padding: append `0x80`, zeros to 56 mod 64, then the 64-bit LE bit length. -/
def md5pad (msg : List Nat) : List Nat :=
  msg ++ 128 :: List.replicate ((56 + 64 - (msg.length + 1) % 64) % 64) 0
      ++ leBytes8 (8 * msg.length)

/-- Little-endian 32-bit word `j` of a 64-byte block. -/
def md5word (block : List Nat) (j : Nat) : Nat :=
  block.getD (4 * j) 0 + 256 * block.getD (4 * j + 1) 0
    + 65536 * block.getD (4 * j + 2) 0 + 16777216 * block.getD (4 * j + 3) 0

/-- One MD5 compression round over a 64-byte block. -/
def md5block (st : Nat × Nat × Nat × Nat) (block : List Nat) : Nat × Nat × Nat × Nat :=
  let M := (List.range 16).map (md5word block)
  let (a0, b0, c0, d0) := st
  let r := (List.range 64).foldl
    (fun (t : Nat × Nat × Nat × Nat) i =>
      let (a, b, c, d) := t
      let fg : Nat × Nat :=
        if i < 16 then ((b &&& c) ||| ((4294967295 - b) &&& d), i)
        else if i < 32 then ((d &&& b) ||| ((4294967295 - d) &&& c), (5 * i + 1) % 16)
        else if i < 48 then (b ^^^ c ^^^ d, (3 * i + 5) % 16)
        else (c ^^^ (b ||| (4294967295 - d)), (7 * i) % 16)
      let f := (fg.1 + a + md5K.getD i 0 + M.getD fg.2 0) % 4294967296
      (d, (b + rotl32 f (md5S.getD i 0)) % 4294967296, b, c))
    (a0, b0, c0, d0)
  ((a0 + r.1) % 4294967296, (b0 + r.2.1) % 4294967296,
   (c0 + r.2.2.1) % 4294967296, (d0 + r.2.2.2) % 4294967296)

/-- MD5 state after processing all 64-byte blocks of the padded message. -/
def md5core (msg : List Nat) : Nat × Nat × Nat × Nat :=
  let padded := md5pad msg
  (List.range (padded.length / 64)).foldl
    (fun st i => md5block st ((padded.drop (64 * i)).take 64))
    (1732584193, 4023233417, 2562383102, 271733878)

/-- Lowercase hexadecimal digit. -/
def hexDigit (n : Nat) : Char :=
  "0123456789abcdef".data.getD n '0'

/-- Two-character lowercase hex of one byte. -/
def hexByte (b : Nat) : List Char := [hexDigit (b / 16), hexDigit (b % 16)]

/-- Little-endian hex rendering of one 32-bit word. -/
def hexWordLE (w : Nat) : List Char :=
  hexByte (w % 256) ++ hexByte (w / 256 % 256) ++ hexByte (w / 65536 % 256)
    ++ hexByte (w / 16777216 % 256)

/-- Python `hashlib.md5(bytes).hexdigest()`. -/
def md5hex (msg : List Nat) : String :=
  let (a, b, c, d) := md5core msg
  ⟨hexWordLE a ++ hexWordLE b ++ hexWordLE c ++ hexWordLE d⟩

/-! ### Base64 (Python `base64.b64encode` / `b64decode`) -/

/-- The standard base64 alphabet. -/
def b64alphabet : List Char :=
  "ABCDEFGHIJKLMNOPQRSTUVWXYZabcdefghijklmnopqrstuvwxyz0123456789+/".data

/-- Character for a sextet value. -/
def sextetChar (n : Nat) : Char := b64alphabet.getD n 'A'

/-- Sextet value of an alphabet character, `none` for non-alphabet input. -/
def sextetVal (c : Char) : Option Nat := b64alphabet.indexOf? c

/-- Python `base64.b64encode` on a byte list, producing base64 characters. -/
def b64encode : List Nat → List Char
  | [] => []
  | [b1] =>
      let n := b1 * 65536
      [sextetChar (n / 262144 % 64), sextetChar (n / 4096 % 64), '=', '=']
  | [b1, b2] =>
      let n := b1 * 65536 + b2 * 256
      [sextetChar (n / 262144 % 64), sextetChar (n / 4096 % 64),
       sextetChar (n / 64 % 64), '=']
  | b1 :: b2 :: b3 :: rest =>
      let n := b1 * 65536 + b2 * 256 + b3
      sextetChar (n / 262144 % 64) :: sextetChar (n / 4096 % 64) ::
        sextetChar (n / 64 % 64) :: sextetChar (n % 64) :: b64encode rest

/-- Python `base64.b64decode` on well-formed input (4-character groups,
padding only in the final group); `none` models a `binascii.Error`. -/
def b64decode : List Char → Option (List Nat)
  | [] => some []
  | c1 :: c2 :: c3 :: c4 :: rest =>
      match sextetVal c1, sextetVal c2 with
      | some v1, some v2 =>
        if c3 = '=' ∧ c4 = '=' ∧ rest = [] then
          some [(v1 * 262144 + v2 * 4096) / 65536 % 256]
        else if c4 = '=' ∧ rest = [] then
          match sextetVal c3 with
          | some v3 =>
              let m := v1 * 262144 + v2 * 4096 + v3 * 64
              some [m / 65536 % 256, m / 256 % 256]
          | none => none
        else
          match sextetVal c3, sextetVal c4, b64decode rest with
          | some v3, some v4, some tl =>
              let m := v1 * 262144 + v2 * 4096 + v3 * 64 + v4
              some ([m / 65536 % 256, m / 256 % 256, m % 256] ++ tl)
          | _, _, _ => none
      | _, _ => none
  | _ => none

/-- Python `b64encode(body).decode()`: the stored base64 string. -/
def b64encodeStr (body : List Nat) : String := ⟨b64encode body⟩

/-- Python `b64decode(stored)` on the stored base64 string. -/
def b64decodeStr (s : String) : Option (List Nat) := b64decode s.data

/-! ### Configuration model

Modelled from the spec: `proxycraft/config/models.py` is not among the
provided sources; the types below follow spec section 3 and agree with the
sibling `src/pyprox/config/models.py` (dataclasses with `slots=True`).
Only the fields the verified fragments read are carried. Note that the
`Endpoint` model defines `prefix` and `match` but no field named `endpoint`
(in `pyprox/config/models.py` the dataclass is slotted, so reading an
undeclared attribute raises `AttributeError`). `prefix` and `match` are
Lean keywords, hence the field names `prefix_` and `match_`. -/

/-- Upstream proxy mode switch (`ProxyConfig`). -/
structure ProxyConfig where
  enabled : Bool
deriving Repr, DecidableEq

/-- Virtual upstream configuration (`VirtualSourceConfig`). -/
structure VirtualSourceConfig where
  sources : List String
  enabled : Bool
  strategy : String
deriving Repr, DecidableEq

/-- Upstream union (`UpstreamConfig`); only the variants the proxy core
dispatches on are carried. -/
structure UpstreamConfig where
  proxy : Option ProxyConfig
  virtual : Option VirtualSourceConfig
deriving Repr, DecidableEq

/-- HTTPS backend payload (`HttpsBackend`); defaults per the dataclass:
`timeout = 30`, `headers = {}`, `methods = ["GET"]`. -/
structure HttpsBackend where
  url : String
  methods : List String := ["GET"]
  headers : List (String × String) := []
  timeout : Nat := 30
deriving Repr, DecidableEq

/-- Backend union (`Backends`); only the `https` variant is embedded, the
other variants are irrelevant to the verified claims and read as absent. -/
structure Backends where
  https : Option HttpsBackend
deriving Repr, DecidableEq

/-- One routing-table entry (`Endpoint`). -/
structure Endpoint where
  prefix_ : String
  match_ : String
  upstream : UpstreamConfig
  identifier : Option String := none
  weight : Int := 100
  backends : Option Backends := none
deriving Repr, DecidableEq

/-- Top-level configuration (`Config`). -/
structure Config where
  name : String
  version : String
  endpoints : List Endpoint
deriving Repr, DecidableEq

/-! ### Config loader (`proxycraft/config/loader.py`) -/

/-- Stable insertion of an endpoint into a weight-descending list:
an element is placed after every existing element of weight greater than
or equal to its own, which is the order `list.sort(key=weight, reverse=True)`
produces (Python's sort is stable). -/
def insertByWeightDesc (e : Endpoint) : List Endpoint → List Endpoint
  | [] => [e]
  | x :: xs =>
      if Endpoint.weight e ≤ Endpoint.weight x then x :: insertByWeightDesc e xs
      else e :: x :: xs

/-- `config.endpoints.sort(key=lambda e: e.weight, reverse=True)`. -/
def sortByWeightDesc (l : List Endpoint) : List Endpoint :=
  l.foldl (fun acc e => insertByWeightDesc e acc) []

/-- `get_file_config(filepath)`: the file system is a map from paths to
contents (`none` = `FileNotFoundError`, which the loader catches and turns
into `None`); JSON decoding plus `Config(**...)` validation is the abstract
`parse`. On success the endpoint list is sorted by weight descending. -/
def get_file_config (fs : String → Option String) (parse : String → Config)
    (filepath : String) : Option Config :=
  match fs filepath with
  | none => none
  | some contents =>
      let config := parse contents
      some { config with endpoints := sortByWeightDesc (Config.endpoints config) }

/-- The built-in default configuration `ProxyCraft.__init__` falls back to
(`proxycraft/proxycraft.py`, the `Config(**{...})` literal): one endpoint
with prefix `/`, match `**/*`, an HTTPS backend at
`https://jsonplaceholder.typicode.com/posts`, upstream proxy enabled. -/
def default_config : Config :=
  { name := "Default config"
    version := "1.0"
    endpoints :=
      [{ prefix_ := "/"
         match_ := "**/*"
         upstream := { proxy := some { enabled := true }, virtual := none }
         backends := some { https := some { url := "https://jsonplaceholder.typicode.com/posts" } } }] }

/-- `ProxyCraft.__init__` configuration resolution:
`self.config = get_file_config(config_file) if config_file else config`,
falling back to `default_config` when the result is `None`. -/
def proxycraft_init_config (fs : String → Option String) (parse : String → Config)
    (config_file : Option String) (config : Option Config) : Config :=
  let loaded := match config_file with
    | some f => get_file_config fs parse f
    | none => config
  match loaded with
  | some c => c
  | none => default_config

/-! ### Routing selector (`proxycraft/networking/routing/routing_selector.py`) -/

/-- Python exceptions observable through the wildcard handler. -/
inductive PyErr where
  /-- `starlette.exceptions.HTTPException(status_code, detail)`. -/
  | httpExc (status : Nat) (detail : String)
  /-- `AttributeError` with its message. -/
  | attrError (msg : String)
  /-- The bare `Exception` the routing selector raises. -/
  | notRouted (msg : String)
  /-- `KeyError` from `endpoints_by_identifier[source]`. -/
  | keyError (key : String)
  /-- `ValueError` from `ProxyHandlerFactory.create_and_handle`. -/
  | valueError (msg : String)
  /-- `asyncio.TimeoutError`. -/
  | timeout
deriving Repr, DecidableEq

/-- The pattern `RoutingSelector.find_endpoint` hands to the Ant matcher:
`e.match if e.match else e.endpoint`. A non-empty `match` is truthy and is
used; an empty `match` makes Python evaluate `e.endpoint`, an attribute the
`Endpoint` model does not define, raising `AttributeError`. -/
def tryPattern (e : Endpoint) : Except PyErr String :=
  if Endpoint.match_ e ≠ "" then .ok (Endpoint.match_ e)
  else .error (.attrError "Endpoint object has no attribute endpoint")

/-- The lazy scan of `next((e for e in endpoints if match(e)), None)`. -/
def findFirstMatch (matcher : String → String → Bool) (path : String) :
    List Endpoint → Except PyErr (Option Endpoint)
  | [] => .ok none
  | e :: rest =>
      match tryPattern e with
      | .error err => .error err
      | .ok pat =>
          if matcher pat path then .ok (some e)
          else findFirstMatch matcher path rest

/-- `RoutingSelector.find_endpoint`: append `/` to the request path when
absent, return the first endpoint whose pattern matches, raise when none
does. The Ant matcher is the external `antpathmatcher` library, taken as a
parameter. -/
def find_endpoint (matcher : String → String → Bool) (endpoints : List Endpoint)
    (request_url_path : String) : Except PyErr Endpoint :=
  let path := if strEndsWith request_url_path "/" then request_url_path
              else request_url_path ++ "/"
  match findFirstMatch matcher path endpoints with
  | .error err => .error err
  | .ok (some e) => .ok e
  | .ok none => .error (.notRouted ("no endpoint found for " ++ path))

/-! ### Middleware registration order (`ProxyCraft.__init__.configure_middlewares`) -/

/-- The middlewares `configure_middlewares` registers. -/
inductive MW where
  | contentLength
  | inMemoryCache
  | inFileCache
  | botFilter
  | ipFilter
  | resourceFilter
  | compression
  | responseTransformer
deriving Repr, DecidableEq

/-- Starlette `app.add_middleware(cls)`: inserts at index 0 of
`user_middleware`; the list is kept outermost-first (Starlette builds the
stack by wrapping from the reversed list, so index 0 is the first middleware
to see a request). -/
def add_middleware (stack : List MW) (m : MW) : List MW := m :: stack

/-- `configure_middlewares`: the registration sequence of
`proxycraft/proxycraft.py` (ContentLength always; the two caches and the
three filters only when enabled in config; Compression and the Response
transformer always), followed by `self.app.user_middleware.reverse()`.
The result lists the middleware chain outermost-first. -/
def configure_middlewares (memEnabled fileEnabled botEnabled ipEnabled
    resourceEnabled : Bool) : List MW :=
  let s : List MW := []
  let s := add_middleware s .contentLength
  let s := if memEnabled then add_middleware s .inMemoryCache else s
  let s := if fileEnabled then add_middleware s .inFileCache else s
  let s := if botEnabled then add_middleware s .botFilter else s
  let s := if ipEnabled then add_middleware s .ipFilter else s
  let s := if resourceEnabled then add_middleware s .resourceFilter else s
  let s := add_middleware s .compression
  let s := add_middleware s .responseTransformer
  s.reverse

/-! ### HTTPS backend (`proxycraft/upstreams/backends/http/https.py`) -/

/-- An incoming request as the handler reads it: `request.url.path`,
`request.url.query` (Starlette yields the empty string when the URL has no
query part) and `request.method`. -/
structure Req where
  path : String
  query : String
  method : String
deriving Repr, DecidableEq

/-- A response as produced by the handler layer: status code, the
`media_type`/`Content-Type` if any, and the textual body. -/
structure HttpResp where
  status : Nat
  contentType : Option String
  body : String
deriving Repr, DecidableEq

/-- `Https._forge_target_url(url, path, prefix, query)`: a `$`-suffixed
backend URL is pinned (`url.rstrip("$")`); otherwise the prefix-stripped
request path is appended; the result is then `strip("/")`-ed and
`?query` is appended whenever `query is not None`. -/
def forge_target_url (url path prefix_ : String) (query : Option String) : String :=
  let target_url :=
    if strEndsWith url "$" then pyRStripChar url '$'
    else url ++ "/" ++ pyStripChar (pyDropPfx path prefix_) '/'
  let target_url := pyStripChar target_url '/'
  match query with
  | some q => target_url ++ "?" ++ q
  | none => target_url

/-- `dict.update`: merge the backend's extra headers over the request
headers, replacing values for keys already present, appending new keys. -/
def headersUpdate (base extra : List (String × String)) : List (String × String) :=
  extra.foldl
    (fun acc kv =>
      if acc.any (fun p => p.1 = kv.1)
      then acc.map (fun p => if p.1 = kv.1 then kv else p)
      else acc ++ [kv])
    base

/-- `Https.handle_request` up to the upstream call: pick the first backend
when a list, forge the target URL, merge backend headers, and gate the
method — `request.method not in http_methods` raises
`HTTPException(405, "Http method not supported")` before the upstream world
(the `upstream` parameter) is ever consulted. -/
def https_handle_request
    (upstream : String → String → List (String × String) → HttpResp)
    (endpoint : Endpoint) (backend : HttpsBackend)
    (headers : List (String × String)) (req : Req) : Except PyErr HttpResp :=
  let target_url := forge_target_url (HttpsBackend.url backend) (Req.path req)
      (Endpoint.prefix_ endpoint) (some (Req.query req))
  let headers := headersUpdate headers (HttpsBackend.headers backend)
  if (HttpsBackend.methods backend).contains (Req.method req) = false then
    .error (.httpExc 405 "Http method not supported")
  else
    .ok (upstream (Req.method req) target_url headers)

/-- `ProxyHandlerFactory.create_and_handle` restricted to the `https`
variant (the only backend kind the verified claims exercise): a backend with
`https` set dispatches to `Https.handle_request`; with no recognised variant
the factory raises `ValueError("No valid handler found for backend")`. -/
def httpsFactory (upstream : String → String → List (String × String) → HttpResp)
    (headers : List (String × String)) (endpoint : Endpoint)
    (backends : Option Backends) (req : Req) : Except PyErr HttpResp :=
  match backends with
  | some bs =>
      match Backends.https bs with
      | some hb => https_handle_request upstream endpoint hb headers req
      | none => .error (.valueError "No valid handler found for backend")
  | none => .error (.valueError "No valid handler found for backend")

/-! ### Wildcard request handler (`proxycraft/proxycraft.py`, `handle_request`) -/

/-- Python `str(e)` for each embedded exception
(`HTTPException.__str__` is `f"{status_code}: {detail}"`). -/
def strPyErr : PyErr → String
  | .httpExc status detail => toString status ++ ": " ++ detail
  | .attrError msg => msg
  | .notRouted msg => msg
  | .keyError key => key
  | .valueError msg => msg
  | .timeout => "timeout"

/-- The `except Exception` block of `handle_request`: `asyncio.TimeoutError`
becomes `408 Request timed out`, everything else a `500` whose body is
`str(e)`, both with `Content-Type: application/json`. -/
def caughtResponse : PyErr → HttpResp
  | .timeout => { status := 408, contentType := some "application/json",
                  body := "Request timed out" }
  | e => { status := 500, contentType := some "application/json", body := strPyErr e }

/-- The final `Response(status_code=404, media_type="text/plain",
content="Not Found")`. -/
def notFoundResp : HttpResp :=
  { status := 404, contentType := some "text/plain", body := "Not Found" }

/-- `endpoints_by_identifier[source]`: the dict comprehension keys every
endpoint by its identifier (later entries overwrite earlier ones), and
subscription raises `KeyError` on a missing source. -/
def lookupIdentifier (endpoints : List Endpoint) (source : String) : Option Endpoint :=
  (endpoints.filter (fun e => Endpoint.identifier e = some source)).getLast?

/-- The in-process URL the virtual branch requests for one source:
`resource_path = request.url.path.removeprefix(endpoint.prefix)`,
`path = source_endpoint.prefix + resource_path`, but when the request
carries a query string the code overwrites this with
`f"{request.url.path}?{request.url.query}"`. -/
def virtual_source_path (endpoint source_endpoint : Endpoint)
    (reqPath query : String) : String :=
  let resource_path := pyDropPfx reqPath (Endpoint.prefix_ endpoint)
  let path := Endpoint.prefix_ source_endpoint ++ resource_path
  if query ≠ "" then reqPath ++ "?" ++ query else path

/-- The `for source in sources` loop of the virtual `first-match` branch:
resolve each source endpoint, re-enter the app (`handle` — `none` means the
inner handling did not terminate), skip non-200 results, and wrap the first
200 as `Response(status, media_type=content-type or "application/text",
content=r.text)`; an exhausted loop falls through to `404 Not Found`. -/
def virtualLoop (handle : Req → Option HttpResp) (endpoint : Endpoint)
    (endpoints : List Endpoint) (req : Req) : List String → Option HttpResp
  | [] => some notFoundResp
  | source :: rest =>
      match lookupIdentifier endpoints source with
      | none => some (caughtResponse (.keyError source))
      | some source_endpoint =>
          let url := virtual_source_path endpoint source_endpoint
              (Req.path req) (Req.query req)
          let pq := splitQuery url
          match handle { path := pq.1, query := pq.2, method := Req.method req } with
          | none => none
          | some r =>
              if r.status ≠ 200 then virtualLoop handle endpoint endpoints req rest
              else some { status := r.status,
                          contentType := some ((HttpResp.contentType r).getD "application/text"),
                          body := HttpResp.body r }

/-- `handle_request(routing_selector, config, app, request, ...)`:
route the request, dispatch the proxy branch through the backend factory,
run the virtual `first-match` loop (re-entering this same handler through
the in-app ASGI transport — modelled as the recursive call, the middleware
chain being identity for configs with no middleware enabled), fall through
to `404 Not Found`, and map every raised exception per `caughtResponse`.
Fuel bounds the re-entry depth; `none` means handling did not terminate
within the given fuel. -/
def handle_request (matcher : String → String → Bool)
    (factory : Endpoint → Option Backends → Req → Except PyErr HttpResp)
    (endpoints : List Endpoint) : Nat → Req → Option HttpResp
  | 0, _ => none
  | fuel + 1, req =>
      match find_endpoint matcher endpoints (Req.path req) with
      | .error e => some (caughtResponse e)
      | .ok endpoint =>
          let up := Endpoint.upstream endpoint
          match UpstreamConfig.proxy up with
          | some p =>
              if ProxyConfig.enabled p then
                match factory endpoint (Endpoint.backends endpoint) req with
                | .error e => some (caughtResponse e)
                | .ok r => some r
              else
                match UpstreamConfig.virtual up with
                | some v =>
                    if VirtualSourceConfig.enabled v then
                      if VirtualSourceConfig.strategy v = "first-match" then
                        virtualLoop (handle_request matcher factory endpoints fuel)
                          endpoint endpoints req (VirtualSourceConfig.sources v)
                      else some notFoundResp
                    else some notFoundResp
                | none => some notFoundResp
          | none =>
              match UpstreamConfig.virtual up with
              | some v =>
                  if VirtualSourceConfig.enabled v then
                    if VirtualSourceConfig.strategy v = "first-match" then
                      virtualLoop (handle_request matcher factory endpoints fuel)
                        endpoint endpoints req (VirtualSourceConfig.sources v)
                    else some notFoundResp
                  else some notFoundResp
              | none => some notFoundResp

/-! ### File cache middleware
(`pyprox/middlewares/performance/caching/in_file.py`) -/

/-- `InFileCacheMiddleware._generate_cache_key(path, query_string)`:
`key_base = f"{path}?{query_string}" if query_string else path`, then the
md5 hex digest of its UTF-8 bytes. -/
def generate_cache_key (path query_string : String) : String :=
  let key_base := if query_string ≠ "" then path ++ "?" ++ query_string else path
  md5hex (utf8Bytes key_base)

/-- Modelled from the spec: the cache key as the spec words it,
the hex `md5(path + "?" + query)` digest unconditionally.
Kept for comparison with `generate_cache_key` above. -/
def spec_cache_key (path query_string : String) : String :=
  md5hex (utf8Bytes (path ++ "?" ++ query_string))

/-- `_should_cache_path(path)`: true when any `include_patterns` glob
matches the path via the external Ant matcher. -/
def should_cache_path (matcher : String → String → Bool)
    (include_patterns : List String) (path : String) : Bool :=
  include_patterns.any (fun pattern => matcher pattern path)

/-- One ASGI response message as `send_wrapper` observes it. -/
inductive RespMsg where
  /-- `http.response.start` with its status and raw headers. -/
  | start (status : Nat) (headers : List (String × String))
  /-- `http.response.body` with a chunk and the `more_body` flag. -/
  | body (chunk : List Nat) (more : Bool)
deriving Repr, DecidableEq

/-- A cache admission: the status, headers (`dict(self.response_headers)`)
and complete body handed to `_cache_response`. -/
structure Admission where
  status : Nat
  headers : List (String × String)
  body : List Nat
deriving Repr, DecidableEq

/-- The mutable state of `send_wrapper`: whether `http.response.start` was
seen, the recorded status and headers, the accumulated body, and the
admission performed (if any). -/
structure WrapState where
  sent : Bool
  status : Nat
  headers : List (String × String)
  acc : List Nat
  admitted : Option Admission
deriving Repr, DecidableEq

/-- State before any message. -/
def initWrap : WrapState :=
  { sent := false, status := 0, headers := [], acc := [], admitted := none }

/-- One step of `send_wrapper`: record status/headers on
`http.response.start`; on `http.response.body` after a start, and only for
`200 <= status < 400`, extend the body buffer and — when `more_body` is
false and the buffer is non-empty — admit the buffered response. -/
def send_wrapper_step (st : WrapState) : RespMsg → WrapState
  | .start status headers => { st with sent := true, status := status, headers := headers }
  | .body chunk more =>
      if st.sent then
        if 200 ≤ st.status ∧ st.status < 400 then
          let acc := st.acc ++ chunk
          if more = false ∧ acc ≠ [] then
            { st with acc := acc,
                      admitted := some { status := st.status,
                                         headers := dedupFirst st.headers,
                                         body := acc } }
          else { st with acc := acc }
        else st
      else st

/-- `InFileCacheMiddleware.__call__` on the cache-miss path, viewed as the
admission it performs: the quick bailouts (cache disabled, non-HTTP scope,
non-GET method, path matching no include pattern) skip the wrapper
entirely; otherwise the response messages stream through
`send_wrapper_step`. A cache hit would have returned earlier without
admitting anything, so admission behaviour is unaffected. -/
def in_file_cache_admission (cache_enabled : Bool) (scopeType method : String)
    (matcher : String → String → Bool) (include_patterns : List String)
    (path : String) (msgs : List RespMsg) : Option Admission :=
  if cache_enabled = false ∨ scopeType ≠ "http" ∨ method ≠ "GET" then none
  else if should_cache_path matcher include_patterns path = false then none
  else (msgs.foldl send_wrapper_step initWrap).admitted

/-- A header value as stored on disk: `str` or `list[str]`
(`_send_cached_response` handles both shapes). -/
inductive HVal where
  | str (v : String)
  | list (vs : List String)
deriving Repr, DecidableEq

/-- One serialized cache file:
`{timestamp, status_code, content (base64), headers}`. -/
structure CacheEntry where
  timestamp : Nat
  status_code : Nat
  content : String
  headers : List (String × HVal)
deriving Repr, DecidableEq

/-- `_cache_response(...)` serialization: the stored entry carries the
admission time, status, `b64encode(body).decode()` and the headers dict. -/
def cache_response (now : Nat) (status_code : Nat)
    (headers : List (String × String)) (body : List Nat) : CacheEntry :=
  { timestamp := now
    status_code := status_code
    content := b64encodeStr body
    headers := headers.map (fun p => (p.1, HVal.str p.2)) }

/-- The response `_send_cached_response` emits: status, reconstructed
headers and the body bytes. -/
structure ServedResponse where
  status : Nat
  headers : List (String × String)
  body : List Nat
deriving Repr, DecidableEq

/-- Header reconstruction in `_send_cached_response`: list values are
re-emitted one by one; a scalar `content-length` is replaced by the length
of the (already decoded) content; finally `x-cache-status: HIT` is
appended. -/
def reconstructHeaders (stored : List (String × HVal)) (content : List Nat) :
    List (String × String) :=
  (stored.map (fun nv =>
      match nv.2 with
      | .list vs => vs.map (fun v => (nv.1, v))
      | .str v =>
          if nv.1 = "content-length" then [(nv.1, toString content.length)]
          else [(nv.1, v)])).flatten
    ++ [("x-cache-status", "HIT")]

/-- Serving a file-cache hit: `__call__` decodes the stored base64 content
(`cache_data["content"] = b64decode(...)`) and `_send_cached_response`
rebuilds and sends the response; `none` models a decode failure. -/
def serve_file_hit (e : CacheEntry) : Option ServedResponse :=
  (b64decodeStr (CacheEntry.content e)).map fun content =>
    { status := CacheEntry.status_code e
      headers := reconstructHeaders (CacheEntry.headers e) content
      body := content }

/-! ### Concrete fixtures used by the theorems below -/

/-- A concrete instantiation of the external Ant matcher that matches every
pattern (any concrete matcher works for the counterexamples that use it). -/
def matchAll : String → String → Bool := fun _ _ => true

/-- A virtual first-match endpoint whose source list names its own
identifier. -/
def cyclicEndpoint : Endpoint :=
  { prefix_ := "/v"
    match_ := "/v/**"
    identifier := some "v"
    upstream := { proxy := none,
                  virtual := some { sources := ["v"], enabled := true,
                                    strategy := "first-match" } } }

/-- A configuration consisting of the self-referencing virtual endpoint. -/
def cyclicConfig : List Endpoint := [cyclicEndpoint]

/-- A request the cyclic virtual endpoint routes to itself. -/
def cyclicReq : Req := { path := "/v/x", query := "", method := "GET" }

/-- A source endpoint with prefix `/s` for the virtual-path computation. -/
def sourceEndpointS : Endpoint :=
  { prefix_ := "/s"
    match_ := "/s/**"
    identifier := some "s"
    upstream := { proxy := some { enabled := true }, virtual := none } }

/-- An HTTPS backend that only allows `GET`. -/
def gateBackend : HttpsBackend :=
  { url := "https://api.example.com", methods := ["GET"] }

/-- A proxy endpoint dispatching to `gateBackend`. -/
def gateEndpoint : Endpoint :=
  { prefix_ := "/x"
    match_ := "/x/**"
    upstream := { proxy := some { enabled := true }, virtual := none }
    backends := some { https := some gateBackend } }

/-- A `POST` request for the method-gate scenario. -/
def postReq : Req := { path := "/x/a", query := "", method := "POST" }

/-! ## Theorems -/

/-! ### Base64 round-trip -/

theorem sextetVal_sextetChar : ∀ n, n < 64 → sextetVal (sextetChar n) = some n := by
  decide

theorem sextetChar_ne_pad : ∀ n, n < 64 → sextetChar n ≠ '=' := by
  decide

theorem b64_roundtrip : ∀ (l : List Nat), (∀ b ∈ l, b < 256) →
    b64decode (b64encode l) = some l
  | [], _ => rfl
  | [b1], h => by
      have hb1 : b1 < 256 := h b1 (by simp)
      have e1 := sextetVal_sextetChar (b1 * 65536 / 262144 % 64)
        (Nat.mod_lt _ (by norm_num))
      have e2 := sextetVal_sextetChar (b1 * 65536 / 4096 % 64)
        (Nat.mod_lt _ (by norm_num))
      simp only [b64encode, b64decode, e1, e2]
      rw [if_pos (by simp)]
      simp only [Option.some.injEq, List.cons.injEq, and_true]
      omega
  | [b1, b2], h => by
      have hb1 : b1 < 256 := h b1 (by simp)
      have hb2 : b2 < 256 := h b2 (by simp)
      have e1 := sextetVal_sextetChar ((b1 * 65536 + b2 * 256) / 262144 % 64)
        (Nat.mod_lt _ (by norm_num))
      have e2 := sextetVal_sextetChar ((b1 * 65536 + b2 * 256) / 4096 % 64)
        (Nat.mod_lt _ (by norm_num))
      have e3 := sextetVal_sextetChar ((b1 * 65536 + b2 * 256) / 64 % 64)
        (Nat.mod_lt _ (by norm_num))
      have ne3 := sextetChar_ne_pad ((b1 * 65536 + b2 * 256) / 64 % 64)
        (Nat.mod_lt _ (by norm_num))
      simp only [b64encode, b64decode, e1, e2]
      rw [if_neg (fun hc => ne3 hc.1), if_pos (by simp), e3]
      simp only [Option.some.injEq, List.cons.injEq, and_true]
      omega
  | b1 :: b2 :: b3 :: rest, h => by
      have hb1 : b1 < 256 := h b1 (by simp)
      have hb2 : b2 < 256 := h b2 (by simp)
      have hb3 : b3 < 256 := h b3 (by simp)
      have ih := b64_roundtrip rest (fun b hb => h b (by simp [hb]))
      have e1 := sextetVal_sextetChar ((b1 * 65536 + b2 * 256 + b3) / 262144 % 64)
        (Nat.mod_lt _ (by norm_num))
      have e2 := sextetVal_sextetChar ((b1 * 65536 + b2 * 256 + b3) / 4096 % 64)
        (Nat.mod_lt _ (by norm_num))
      have e3 := sextetVal_sextetChar ((b1 * 65536 + b2 * 256 + b3) / 64 % 64)
        (Nat.mod_lt _ (by norm_num))
      have e4 := sextetVal_sextetChar ((b1 * 65536 + b2 * 256 + b3) % 64)
        (Nat.mod_lt _ (by norm_num))
      have ne3 := sextetChar_ne_pad ((b1 * 65536 + b2 * 256 + b3) / 64 % 64)
        (Nat.mod_lt _ (by norm_num))
      have ne4 := sextetChar_ne_pad ((b1 * 65536 + b2 * 256 + b3) % 64)
        (Nat.mod_lt _ (by norm_num))
      simp only [b64encode, b64decode, e1, e2]
      rw [if_neg (fun hc => ne3 hc.1), if_neg (fun hc => ne4 hc.1), e3, e4, ih]
      simp only [Option.some.injEq, List.cons_append, List.nil_append,
        List.cons.injEq, and_true]
      omega

/-! ### Claim theorems -/

/-- C1. The claim says the pattern tried for an endpoint is `endpoint.match`
if set and otherwise `endpoint.prefix`. In the code the fallback is
`e.endpoint`, an attribute the `Endpoint` model does not define: for an
endpoint whose `match` is empty the selector raises `AttributeError`
(mapped to a 500 by the wildcard handler) instead of matching against
`endpoint.prefix`. This theorem evaluates the embedded selector at such an
endpoint: even with a matcher that matches everything — under which the
claimed prefix fallback would select the endpoint — the selector fails. -/
theorem C1_empty_match_raises_attribute_error :
    find_endpoint matchAll
      [{ prefix_ := "/x/", match_ := "",
         upstream := { proxy := none, virtual := none } }] "/x/a"
      = .error (.attrError "Endpoint object has no attribute endpoint") := rfl

/-- C2 counterexample. With every optional middleware enabled, the
outermost-first chain produced by `configure_middlewares` (Starlette
`add_middleware` inserts at the head of `user_middleware`, and the code then
reverses that list) is not the order claimed in spec section 4.D
(Compression outermost … Content-Length rewriter innermost). -/
theorem C2_counterexample_order :
    configure_middlewares true true true true true ≠
      [MW.compression, MW.responseTransformer, MW.resourceFilter, MW.ipFilter,
       MW.botFilter, MW.inFileCache, MW.inMemoryCache, MW.contentLength] := by
  decide

/-- C2 amended. For every combination of the five enable flags, the pipeline
runs outermost-first as: Content-Length rewriter, then Memory cache, File
cache, Bot filter, IP filter, ResourceFilter, Compression, Response
transformer (each optional middleware present only when enabled), and then
the terminal routing/backend handler — the registration order itself, which
is the reverse of the order claimed in spec section 4.D except that
Compression still precedes the Response transformer. -/
theorem C2_amended_pipeline_order :
    ∀ memEnabled fileEnabled botEnabled ipEnabled resourceEnabled : Bool,
      configure_middlewares memEnabled fileEnabled botEnabled ipEnabled
          resourceEnabled =
        [MW.contentLength]
          ++ (if memEnabled then [MW.inMemoryCache] else [])
          ++ (if fileEnabled then [MW.inFileCache] else [])
          ++ (if botEnabled then [MW.botFilter] else [])
          ++ (if ipEnabled then [MW.ipFilter] else [])
          ++ (if resourceEnabled then [MW.resourceFilter] else [])
          ++ [MW.compression, MW.responseTransformer] := by
  decide

/-- C4. For every admitted cache entry, serving a hit yields a body
byte-identical to the admitted upstream body (base64 encode then decode is
the identity), the served headers carry `x-cache-status: HIT`, and any
`content-length` header in the served response equals the length of the
served body. -/
theorem C4_hit_serves_admitted_body (now status : Nat)
    (headers : List (String × String)) (body : List Nat)
    (hbytes : ∀ b ∈ body, b < 256) :
    ∃ served,
      serve_file_hit (cache_response now status headers body) = some served
      ∧ ServedResponse.body served = body
      ∧ ServedResponse.status served = status
      ∧ ("x-cache-status", "HIT") ∈ ServedResponse.headers served
      ∧ ∀ v, ("content-length", v) ∈ ServedResponse.headers served →
          v = toString body.length := by
  have hdec : b64decodeStr (b64encodeStr body) = some body :=
    b64_roundtrip body hbytes
  refine ⟨{ status := status,
            headers := reconstructHeaders
              (headers.map (fun p => (p.1, HVal.str p.2))) body,
            body := body }, ?_, rfl, rfl, ?_, ?_⟩
  · simp [serve_file_hit, cache_response, hdec]
  · simp [reconstructHeaders]
  · intro v hv
    simp only [reconstructHeaders, List.mem_append, List.mem_singleton,
      List.mem_flatten, List.mem_map] at hv
    rcases hv with ⟨l, ⟨nv, hnv, hl⟩, hmem⟩ | hpair
    · rcases hnv with ⟨p, _, hp⟩
      rw [← hp] at hl
      by_cases hck : p.1 = "content-length"
      · rw [← hl] at hmem
        simp only [hck, if_pos rfl] at hmem
        rcases List.mem_singleton.mp hmem with h
        exact congrArg Prod.snd h
      · rw [← hl] at hmem
        simp only [if_neg hck] at hmem
        rcases List.mem_singleton.mp hmem with h
        exact absurd (congrArg Prod.fst h).symm hck
    · have hfst : ("content-length" : String) = "x-cache-status" :=
        congrArg Prod.fst hpair
      exact absurd hfst (by decide)

/-- C4 witness: a concrete entry with a stale stored `content-length` is
served with the admitted body and a recomputed `content-length`. -/
theorem C4_witness :
    (∀ b ∈ [104, 105], b < 256) ∧
    ∃ served,
      serve_file_hit (cache_response 7 200 [("content-length", "99")] [104, 105])
        = some served
      ∧ ServedResponse.body served = [104, 105]
      ∧ ServedResponse.status served = 200
      ∧ ("x-cache-status", "HIT") ∈ ServedResponse.headers served
      ∧ ∀ v, ("content-length", v) ∈ ServedResponse.headers served →
          v = toString (List.length [104, 105]) :=
  ⟨by decide,
   C4_hit_serves_admitted_body 7 200 [("content-length", "99")] [104, 105]
     (by decide)⟩

/-- C5. The claim says the virtual first-match branch re-enters the proxy at
`source_endpoint.prefix + (request.path − endpoint.prefix)` preserving the
query string. In the code, whenever the request carries a query string the
freshly computed source path is overwritten with
`request.url.path + "?" + query`: for a virtual endpoint with prefix `/v`,
a source endpoint with prefix `/s` and request `/v/x?a=1`, the re-entry URL
is `/v/x?a=1` (the original path), not the claimed `/s/x?a=1`. -/
theorem C5_query_discards_source_path :
    virtual_source_path cyclicEndpoint sourceEndpointS "/v/x" "a=1" = "/v/x?a=1"
    ∧ "/v/x?a=1" ≠ "/s/x?a=1" := by
  exact ⟨rfl, by decide⟩

/-- C7. The claim says the client receives `405 Method Not Allowed`. The
backend does raise `HTTPException(405, "Http method not supported")` before
contacting the upstream, but the wildcard handler's blanket `except` maps
every non-timeout exception to a `500` whose body is `str(e)`: for a `POST`
against a GET-only HTTPS backend the client receives status 500 with body
`405: Http method not supported`. The result is the same for every upstream
function and every header set, which is the embedded statement that the
upstream backend is never contacted. -/
theorem C7_method_gate_returns_500 :
    ∀ (upstream : String → String → List (String × String) → HttpResp)
      (headers : List (String × String)) (fuel : Nat),
      handle_request matchAll (httpsFactory upstream headers) [gateEndpoint]
          (fuel + 1) postReq =
        some { status := 500, contentType := some "application/json",
               body := "405: Http method not supported" } :=
  fun _ _ _ => rfl

/-- C8 counterexample. The claim says a `$`-pinned backend URL is used
verbatim with the request's path and query ignored, and that `?query` is
appended iff the request carries a query string. For the spec's own example
(`url=".../hello/world$"`, `prefix="/x"`) and a request without a query
string, the code produces `.../hello/world?` — the handler always passes the
(possibly empty) Starlette query string, which is not `None`, so `?` plus
the query is appended even here — instead of the claimed `.../hello/world`. -/
theorem C8_counterexample_pinned_url :
    forge_target_url "https://sandbox.api.service.nhs.uk/hello-world/hello/world$"
        "/x/abc" "/x" (some "")
      = "https://sandbox.api.service.nhs.uk/hello-world/hello/world?"
    ∧ "https://sandbox.api.service.nhs.uk/hello-world/hello/world?"
      ≠ "https://sandbox.api.service.nhs.uk/hello-world/hello/world" := by
  exact ⟨rfl, by decide⟩

/-- C8 amended. A `$`-pinned backend URL ignores the request path and the
endpoint prefix (first conjunct: the target is the same for any two
paths/prefixes), but the query is still appended: for every passed query
string `q` — and the handler always passes one, Starlette's `request.url.query`
being `""` when absent — the target is the query-less target plus `?` plus
`q` (second conjunct), in the pinned and unpinned cases alike. -/
theorem C8_amended_forge_laws (url p1 pfx1 p2 pfx2 q : String) :
    (strEndsWith url "$" = true →
      forge_target_url url p1 pfx1 (some q) = forge_target_url url p2 pfx2 (some q))
    ∧ forge_target_url url p1 pfx1 (some q)
        = forge_target_url url p1 pfx1 none ++ "?" ++ q := by
  constructor
  · intro hd
    simp [forge_target_url, hd]
  · simp [forge_target_url]

/-- C8 witness: the amended laws at concrete inputs. -/
theorem C8_amended_witness :
    (forge_target_url "https://a$" "/p" "/x" (some "b=1")
      = forge_target_url "https://a$" "/zz" "/y" (some "b=1"))
    ∧ forge_target_url "https://u.example" "/p" "/x" (some "b=1")
        = forge_target_url "https://u.example" "/p" "/x" none ++ "?" ++ "b=1" :=
  ⟨(C8_amended_forge_laws "https://a$" "/p" "/x" "/zz" "/y" "b=1").1 (by decide),
   (C8_amended_forge_laws "https://u.example" "/p" "/x" "" "" "b=1").2⟩

/-- C9 counterexample. The claim says the cache key is the hex md5 digest of
`path + "?" + query` for every cacheable request. For a request with an
empty query string the code digests `path` alone (`key_base` falls back to
`path` when `query_string` is falsy): for `path="/a"`, `query=""` the code's
key is `md5("/a")` while the claimed key is `md5("/a?")`, and the two hex
digests differ. -/
theorem C9_counterexample_empty_query :
    generate_cache_key "/a" "" ≠ spec_cache_key "/a" "" := by
  decide

/-- C9 amended. The cache key is the hex md5 digest of
`path + "?" + query` when the query string is non-empty, and of `path`
alone when it is empty; the request method is not part of the digested
string and the query is not sorted. This theorem states the non-empty-query
agreement with the spec's formula; the counterexample above separates the
empty-query case. -/
theorem C9_amended_key_agreement (path q : String) (hq : q ≠ "") :
    generate_cache_key path q = spec_cache_key path q := by
  simp [generate_cache_key, spec_cache_key, hq]

/-- C9 witness: the amended agreement at a concrete non-empty query. -/
theorem C9_amended_witness :
    ("b=1" : String) ≠ "" ∧ generate_cache_key "/a" "b=1" = spec_cache_key "/a" "b=1" :=
  ⟨by decide, C9_amended_key_agreement "/a" "b=1" (by decide)⟩

/-- C10. If the configuration file does not exist, the loader returns `None`
(`FileNotFoundError` is caught) and `ProxyCraft.__init__` falls back to the
built-in default configuration: a single endpoint with prefix `/`, match
`**/*`, an HTTPS backend at `https://jsonplaceholder.typicode.com/posts`
(with the model's default method list, headers and timeout) and upstream
proxy enabled. -/
theorem C10_missing_file_falls_back_to_default
    (fs : String → Option String) (parse : String → Config) (filepath : String)
    (hmiss : fs filepath = none) :
    get_file_config fs parse filepath = none
    ∧ proxycraft_init_config fs parse (some filepath) none = default_config
    ∧ Config.endpoints default_config =
        [{ prefix_ := "/"
           match_ := "**/*"
           upstream := { proxy := some { enabled := true }, virtual := none }
           backends := some { https := some { url := "https://jsonplaceholder.typicode.com/posts", methods := ["GET"], headers := [], timeout := 30 } } }] := by
  refine ⟨?_, ?_, rfl⟩
  · simp [get_file_config, hmiss]
  · simp [proxycraft_init_config, get_file_config, hmiss]

/-- C10 witness: the fallback on a concrete empty file system. -/
theorem C10_witness :
    get_file_config (fun _ => none) (fun _ => default_config) "missing.json" = none
    ∧ proxycraft_init_config (fun _ => none) (fun _ => default_config)
        (some "missing.json") none = default_config
    ∧ Config.endpoints default_config =
        [{ prefix_ := "/"
           match_ := "**/*"
           upstream := { proxy := some { enabled := true }, virtual := none }
           backends := some { https := some { url := "https://jsonplaceholder.typicode.com/posts", methods := ["GET"], headers := [], timeout := 30 } } }] :=
  C10_missing_file_falls_back_to_default (fun _ => none)
    (fun _ => default_config) "missing.json" rfl

/-- Invariant of `send_wrapper_step` under folding: an admission present in
the final state was already present initially, or it records a status in
the cacheable range and some processed message was a body message with
`more_body = false`. -/
theorem send_wrapper_fold_invariant :
    ∀ (msgs : List RespMsg) (st : WrapState) (a : Admission),
      WrapState.admitted (msgs.foldl send_wrapper_step st) = some a →
      WrapState.admitted st = some a ∨
        (200 ≤ Admission.status a ∧ Admission.status a < 400 ∧
         ∃ chunk, RespMsg.body chunk false ∈ msgs)
  | [], _, _, h => Or.inl h
  | m :: rest, st, a, h => by
      rcases send_wrapper_fold_invariant rest (send_wrapper_step st m) a
          (by simpa using h) with h1 | h2
      · cases m with
        | start status headers =>
            left
            simpa [send_wrapper_step] using h1
        | body chunk more =>
            simp only [send_wrapper_step] at h1
            by_cases hsent : WrapState.sent st
            · rw [if_pos hsent] at h1
              by_cases hrange : 200 ≤ WrapState.status st ∧ WrapState.status st < 400
              · rw [if_pos hrange] at h1
                by_cases hfin : more = false ∧ WrapState.acc st ++ chunk ≠ []
                · rw [if_pos hfin] at h1
                  simp only [Option.some.injEq] at h1
                  right
                  refine ⟨?_, ?_, chunk, ?_⟩
                  · rw [← h1]; exact hrange.1
                  · rw [← h1]; exact hrange.2
                  · rw [hfin.1] at *; exact List.mem_cons_self _ _
                · rw [if_neg hfin] at h1
                  exact Or.inl h1
              · rw [if_neg hrange] at h1
                exact Or.inl h1
            · rw [if_neg hsent] at h1
              exact Or.inl h1
      · exact Or.inr ⟨h2.1, h2.2.1,
          h2.2.2.elim fun c hc => ⟨c, List.mem_cons_of_mem _ hc⟩⟩

/-- C3. The file cache admits an entry only when the cache is enabled, the
scope is HTTP, the method is `GET`, the path matches at least one
`include_patterns` glob, the recorded status satisfies `200 ≤ status < 400`,
and a complete body was observed — some response message carried
`more_body = false`; a stream of exclusively partial chunks admits
nothing. -/
theorem C3_admission_only_if (cache_enabled : Bool) (scopeType method : String)
    (matcher : String → String → Bool) (include_patterns : List String)
    (path : String) (msgs : List RespMsg) (a : Admission)
    (h : in_file_cache_admission cache_enabled scopeType method matcher
        include_patterns path msgs = some a) :
    cache_enabled = true ∧ scopeType = "http" ∧ method = "GET"
    ∧ should_cache_path matcher include_patterns path = true
    ∧ 200 ≤ Admission.status a ∧ Admission.status a < 400
    ∧ ∃ chunk, RespMsg.body chunk false ∈ msgs := by
  unfold in_file_cache_admission at h
  by_cases hbail : cache_enabled = false ∨ scopeType ≠ "http" ∨ method ≠ "GET"
  · rw [if_pos hbail] at h
    exact absurd h (by simp)
  · rw [if_neg hbail] at h
    push_neg at hbail
    by_cases hpath : should_cache_path matcher include_patterns path = false
    · rw [if_pos hpath] at h
      exact absurd h (by simp)
    · rw [if_neg hpath] at h
      rcases send_wrapper_fold_invariant msgs initWrap a h with h1 | h2
      · exact absurd h1 (by simp [initWrap])
      · refine ⟨?_, hbail.2.1, hbail.2.2, ?_, h2.1, h2.2.1, h2.2.2⟩
        · cases cache_enabled
          · exact absurd rfl hbail.1
          · rfl
        · cases hsc : should_cache_path matcher include_patterns path
          · exact absurd hsc hpath
          · rfl

/-- C3 witness: a concrete admitted run — cache enabled, HTTP scope, `GET`,
a matching path, a `200` response completed with `more_body = false`. -/
theorem C3_witness :
    true = true ∧ "http" = "http" ∧ "GET" = "GET"
    ∧ should_cache_path matchAll ["**/*.json"] "/a.json" = true
    ∧ 200 ≤ Admission.status ⟨200, [], [104]⟩
    ∧ Admission.status ⟨200, [], [104]⟩ < 400
    ∧ ∃ chunk, RespMsg.body chunk false ∈
        [RespMsg.start 200 [], RespMsg.body [104] false] :=
  C3_admission_only_if true "http" "GET" matchAll ["**/*.json"] "/a.json"
    [RespMsg.start 200 [], RespMsg.body [104] false] ⟨200, [], [104]⟩ rfl

/-- C6. The claim says request handling breaks virtual-source recursion via
a per-request source stack and responds 500 on a cycle, in particular that
handling terminates. The code maintains no such stack: for the configuration
whose virtual endpoint lists its own identifier as a source, the handler
re-enters itself with the identical request, and for every fuel bound (and
every backend factory) the embedded handler fails to produce a response —
handling the request never terminates, and no 500-on-cycle is produced. -/
theorem C6_cyclic_virtual_never_terminates
    (factory : Endpoint → Option Backends → Req → Except PyErr HttpResp) :
    ∀ fuel, handle_request matchAll factory cyclicConfig fuel cyclicReq = none := by
  intro fuel
  induction fuel with
  | zero => rfl
  | succ n ih =>
      have hstep : handle_request matchAll factory cyclicConfig (n + 1) cyclicReq =
          match handle_request matchAll factory cyclicConfig n cyclicReq with
          | none => none
          | some r =>
              if r.status ≠ 200 then some notFoundResp
              else some { status := r.status,
                          contentType :=
                            some ((HttpResp.contentType r).getD "application/text"),
                          body := HttpResp.body r } := rfl
      rw [hstep, ih]

end ProxyCraft
